import Mathlib

/-!
Verification of the identifier-minting and de-identification subsystem of
the id3c repository.

The de-identification hasher is embedded from
`src/lib/id3c/cli/command/de_identify.py` (`generate_hash`,
`extract_fields_from_input`, and the per-row logic of `de_identify`),
including a full SHA-256 implementation over lists of byte values (`Nat`
below 256, with 32-bit arithmetic done modulo `2 ^ 32`).

The identifier store operations are embedded from
`src/lib/seattleflu/api/datastore.py` (`make_identifier_set`,
`mint_identifiers`); the inner minting loop lives in the repository's `db`
module, which is not among the provided sources, so it is modelled from the
spec (see `mintOne` below).
-/

namespace Id3c

/-- Truncate to a 32-bit word, as all SHA-256 arithmetic is mod `2 ^ 32`. -/
def w32 (n : Nat) : Nat := n % 4294967296

/-- Right rotation of a 32-bit word by `n` bits. -/
def rotr (n x : Nat) : Nat := w32 ((x >>> n) ||| (x <<< (32 - n)))

/-- SHA-256 σ0 (message schedule). -/
def ssig0 (x : Nat) : Nat := (rotr 7 x) ^^^ (rotr 18 x) ^^^ (x >>> 3)

/-- SHA-256 σ1 (message schedule). -/
def ssig1 (x : Nat) : Nat := (rotr 17 x) ^^^ (rotr 19 x) ^^^ (x >>> 10)

/-- SHA-256 Σ0 (compression). -/
def bsig0 (x : Nat) : Nat := (rotr 2 x) ^^^ (rotr 13 x) ^^^ (rotr 22 x)

/-- SHA-256 Σ1 (compression). -/
def bsig1 (x : Nat) : Nat := (rotr 6 x) ^^^ (rotr 11 x) ^^^ (rotr 25 x)

/-- The 64 SHA-256 round constants (FIPS 180-4, in decimal). -/
def sha256K : List Nat :=
  [1116352408, 1899447441, 3049323471, 3921009573, 961987163,
   1508970993, 2453635748, 2870763221, 3624381080, 310598401,
   607225278, 1426881987, 1925078388, 2162078206, 2614888103,
   3248222580, 3835390401, 4022224774, 264347078, 604807628,
   770255983, 1249150122, 1555081692, 1996064986, 2554220882,
   2821834349, 2952996808, 3210313671, 3336571891, 3584528711,
   113926993, 338241895, 666307205, 773529912, 1294757372,
   1396182291, 1695183700, 1986661051, 2177026350, 2456956037,
   2730485921, 2820302411, 3259730800, 3345764771, 3516065817,
   3600352804, 4094571909, 275423344, 430227734, 506948616,
   659060556, 883997877, 958139571, 1322822218, 1537002063,
   1747873779, 1955562222, 2024104815, 2227730452, 2361852424,
   2428436474, 2756734187, 3204031479, 3329325298]

/-- The SHA-256 initial hash state (FIPS 180-4, in decimal). -/
def sha256H0 : List Nat :=
  [1779033703, 3144134277, 1013904242, 2773480762,
   1359893119, 2600822924, 528734635, 1541459225]

/-- Big-endian byte decomposition of `n` into `k` bytes. -/
def beBytes (k n : Nat) : List Nat :=
  (List.range k).map (fun i => (n >>> (8 * (k - 1 - i))) % 256)

/-- SHA-256 padding: append `0x80`, zero bytes up to 56 mod 64, then the
bit length as an 8-byte big-endian integer. -/
def sha256Pad (msg : List Nat) : List Nat :=
  let z := (64 - ((msg.length + 9) % 64)) % 64
  msg ++ [0x80] ++ List.replicate z 0 ++ beBytes 8 (msg.length * 8)

/-- Group bytes into big-endian 32-bit words (dropping any ragged tail;
padded input is always a multiple of 4). -/
def bytesToWords : List Nat → List Nat
  | a :: b :: c :: d :: rest =>
      (a * 16777216 + b * 65536 + c * 256 + d) :: bytesToWords rest
  | _ => []

/-- Split a word list into 16-word blocks (a ragged tail becomes its own
block; padded input is always a multiple of 16 words). -/
def toBlocks : List Nat → List (List Nat)
  | x01 :: x02 :: x03 :: x04 :: x05 :: x06 :: x07 :: x08 ::
    x09 :: x10 :: x11 :: x12 :: x13 :: x14 :: x15 :: x16 :: rest =>
      [x01, x02, x03, x04, x05, x06, x07, x08,
       x09, x10, x11, x12, x13, x14, x15, x16] :: toBlocks rest
  | [] => []
  | l => [l]

/-- Extend a 16-word block to the 64-word message schedule. -/
def sha256Extend (ws : List Nat) : List Nat :=
  (List.range 48).foldl
    (fun w i =>
      w ++ [w32 (ssig1 (w.getD (i + 14) 0) + w.getD (i + 9) 0 +
                 ssig0 (w.getD (i + 1) 0) + w.getD i 0)])
    ws

/-- One SHA-256 compression round over the eight-word working state. -/
def sha256Round (ws : List Nat)
    (st : Nat × Nat × Nat × Nat × Nat × Nat × Nat × Nat) (i : Nat) :
    Nat × Nat × Nat × Nat × Nat × Nat × Nat × Nat :=
  let (a, b, c, d, e, f, g, h) := st
  let ch := (e &&& f) ^^^ ((e ^^^ 4294967295) &&& g)
  let t1 := w32 (h + bsig1 e + ch + sha256K.getD i 0 + ws.getD i 0)
  let mj := (a &&& b) ^^^ (a &&& c) ^^^ (b &&& c)
  let t2 := w32 (bsig0 a + mj)
  (w32 (t1 + t2), a, b, c, w32 (d + t1), e, f, g)

/-- SHA-256 compression of one block into the running hash state. -/
def sha256Compress (hs blk : List Nat) : List Nat :=
  let ws := sha256Extend blk
  let a0 := hs.getD 0 0
  let b0 := hs.getD 1 0
  let c0 := hs.getD 2 0
  let d0 := hs.getD 3 0
  let e0 := hs.getD 4 0
  let f0 := hs.getD 5 0
  let g0 := hs.getD 6 0
  let h0 := hs.getD 7 0
  let (a, b, c, d, e, f, g, h) :=
    (List.range 64).foldl (sha256Round ws) (a0, b0, c0, d0, e0, f0, g0, h0)
  [w32 (a0 + a), w32 (b0 + b), w32 (c0 + c), w32 (d0 + d),
   w32 (e0 + e), w32 (f0 + f), w32 (g0 + g), w32 (h0 + h)]

/-- SHA-256 digest of a byte list, as a list of 32 bytes. -/
def sha256 (msg : List Nat) : List Nat :=
  ((toBlocks (bytesToWords (sha256Pad msg))).foldl sha256Compress
    sha256H0).flatMap (beBytes 4)

/-- UTF-8 encoding of a Unicode code point. -/
def utf8EncodeChar (c : Nat) : List Nat :=
  if c < 0x80 then [c]
  else if c < 0x800 then
    [0xC0 ||| (c >>> 6), 0x80 ||| (c &&& 0x3F)]
  else if c < 0x10000 then
    [0xE0 ||| (c >>> 12), 0x80 ||| ((c >>> 6) &&& 0x3F), 0x80 ||| (c &&& 0x3F)]
  else
    [0xF0 ||| (c >>> 18), 0x80 ||| ((c >>> 12) &&& 0x3F),
     0x80 ||| ((c >>> 6) &&& 0x3F), 0x80 ||| (c &&& 0x3F)]

/-- UTF-8 bytes of a string. -/
def utf8Bytes (s : String) : List Nat :=
  s.data.flatMap (fun c => utf8EncodeChar c.toNat)

/-- Lowercase hexadecimal digit for a value below 16. -/
def hexDigit (n : Nat) : Char :=
  if n < 10 then Char.ofNat (48 + n) else Char.ofNat (87 + n)

/-- Two lowercase hexadecimal digits for one byte. -/
def byteToHex (b : Nat) : List Char :=
  [hexDigit (b / 16), hexDigit (b % 16)]

/-- Lowercase hexadecimal encoding of a byte list (`hexdigest`). -/
def hexdigest (bytes : List Nat) : String :=
  String.mk (bytes.flatMap byteToHex)

/-- Failure modes of `generate_hash`: the `Exception` for a missing
`ID3C_DEIDENTIFY_SECRET` environment variable (the spec's
`ConfigurationError`), and the two `AssertionError`s for empty arguments
(the spec's `InvalidArgumentError`). -/
inductive HashErr where
  | missingSecretConfig : HashErr
  | emptyIdentifier : HashErr
  | emptySecret : HashErr
deriving DecidableEq, Repr

/-- Whether a `generate_hash` failure is one of the empty-argument
assertion failures (the spec's `InvalidArgumentError` class). -/
def HashErr.isInvalidArgument : HashErr → Bool
  | .emptyIdentifier => true
  | .emptySecret => true
  | .missingSecretConfig => false

/-- Embeds `generate_hash` of `src/lib/id3c/cli/command/de_identify.py`:
if `secret` is `None` it is read from the `ID3C_DEIDENTIFY_SECRET`
environment variable (`env` here), raising if absent; then non-emptiness
of identifier and secret are asserted in that order; then the SHA-256
digest of the identifier's UTF-8 bytes followed by the secret's UTF-8
bytes (two `update` calls, i.e. the digest of their concatenation) is
returned as a lowercase hex string. -/
def generate_hash (identifier : String) (secret : Option String)
    (env : Option String) : Except HashErr String :=
  match secret with
  | none =>
    match env with
    | none => .error .missingSecretConfig
    | some s => generate_hashChecked identifier s
  | some s => generate_hashChecked identifier s
where
  generate_hashChecked (identifier s : String) : Except HashErr String :=
    if identifier.length = 0 then .error .emptyIdentifier
    else if s.length = 0 then .error .emptySecret
    else .ok (hexdigest (sha256 (utf8Bytes identifier ++ utf8Bytes s)))

/-- The spec's description of the hash algorithm, written from its words:
the lowercase hexadecimal encoding of the SHA-256 digest of the UTF-8
bytes of `identifier` concatenated with the UTF-8 bytes of `secret`,
identifier bytes first. -/
def hashSpec (identifier secret : String) : String :=
  hexdigest (sha256 (utf8Bytes identifier ++ utf8Bytes secret))

/-- A missing-field failure of record-level hashing: the pandas `KeyError`
of `extract_fields_from_input`, logged together with the list of input
columns. -/
structure FieldErr where
  missing : String
  available : List String
deriving DecidableEq, Repr

/-- Embeds `extract_fields_from_input` of
`src/lib/id3c/cli/command/de_identify.py` for one record (one row of the
input frame, as an association list from column name to value): select the
requested columns' values in order, failing on the first absent column
with an error naming it and listing the record's columns. -/
def extract_fields_from_input (record : List (String × String))
    (columns : List String) : Except FieldErr (List String) :=
  match columns with
  | [] => .ok []
  | c :: rest =>
    match record.lookup c with
    | none => .error ⟨c, record.map Prod.fst⟩
    | some v =>
      match extract_fields_from_input record rest with
      | .error e => .error e
      | .ok vs => .ok (v :: vs)

/-- Failure modes of one row of the `de-identify` command. -/
inductive RowErr where
  | fieldNotFound (missing : String) (available : List String) : RowErr
  | hashFailure (e : HashErr) : RowErr
deriving DecidableEq, Repr

/-- Embeds the per-row logic of `de_identify` (lines 56-63 of
`src/lib/id3c/cli/command/de_identify.py`): extract the requested columns,
join their values with a single space, and map the row to
`generate_hash(joined)` when the joined string is truthy (non-empty) and
to `None` otherwise. -/
def de_identify_row (record : List (String × String)) (columns : List String)
    (env : Option String) : Except RowErr (Option String) :=
  match extract_fields_from_input record columns with
  | .error e => .error (.fieldNotFound e.missing e.available)
  | .ok fields =>
    let joined := String.intercalate (" ") fields
    if joined = "" then .ok none
    else
      match generate_hash joined none env with
      | .error e => .error (.hashFailure e)
      | .ok h => .ok (some h)

/-! ## The persistent identifier store and the minter -/

/-- The persistent identifier store: the names of the identifier sets in
`warehouse.identifier_set`, and the minted identifiers as
(set name, value) pairs. -/
structure Store where
  sets : List String
  minted : List (String × String)
deriving DecidableEq, Repr

/-- Whether an identifier set with the given name exists (the spec's
`setExists`). -/
def setExists (st : Store) (name : String) : Bool :=
  st.sets.contains name

/-- Embeds `make_identifier_set` of `src/lib/seattleflu/api/datastore.py`:
`insert ... on conflict (name) do nothing`, returning whether the row
count was 1, i.e. whether the set was just created. -/
def make_identifier_set (st : Store) (name : String) : Bool × Store :=
  if name ∈ st.sets then (false, st)
  else (true, { st with sets := name :: st.sets })

/-- Failure modes of minting: the `db.IdentifierSetNotFoundError` rethrown
as `NotFound`, and the `db.TooManyFailuresError` rethrown as
`ServiceUnavailable`. -/
inductive MintErr where
  | notFound : MintErr
  | tooManyFailures : MintErr
deriving DecidableEq, Repr

/-- The spec's `insertIdentifier` store primitive: an atomic insert that
fails with `NotFoundError` for an unknown set, reports `false` on a
uniqueness-constraint collision, and otherwise durably commits the new
identifier and reports `true`. -/
def insertIdentifier (st : Store) (name cand : String) :
    Except MintErr (Bool × Store) :=
  if ¬ setExists st name then .error .notFound
  else if (name, cand) ∈ st.minted then .ok (false, st)
  else .ok (true, { st with minted := (name, cand) :: st.minted })

/-- Modelled from the spec: the retry loop of `db.mint_identifiers` (the
`id3c.db` module is not among the provided sources) for a single
identifier. Candidates are drawn from the oracle `gen` at successive
indices, each is offered to `insertIdentifier`, a collision consumes one
unit of the consecutive-failure budget `fuel`, and exhausting the budget
fails with `TooManyFailuresError`. Returns the outcome, the store after
the attempts, the next oracle index, and the number of insert attempts
performed. -/
def mintOne (st : Store) (name : String) (gen : Nat → String) (k : Nat) :
    Nat → Except MintErr String × Store × Nat × Nat
  | 0 => (.error .tooManyFailures, st, k, 0)
  | fuel + 1 =>
    match insertIdentifier st name (gen k) with
    | .error e => (.error e, st, k, 1)
    | .ok (true, st') => (.ok (gen k), st', k + 1, 1)
    | .ok (false, st') =>
      let (r, st'', k', a) := mintOne st' name gen (k + 1) fuel
      (r, st'', k', a + 1)

/-- Modelled from the spec: the outer loop of `db.mint_identifiers`,
minting `n` identifiers one after another, each with a fresh
consecutive-failure budget `maxF`, accumulating the minted values in
generation order and the total number of insert attempts. A failure stops
the loop but keeps the store state reached so far (each insert is its own
transaction). -/
def mintMany (st : Store) (name : String) (gen : Nat → String) (k maxF : Nat) :
    Nat → Except MintErr (List String) × Store × Nat × Nat
  | 0 => (.ok [], st, k, 0)
  | n + 1 =>
    match mintOne st name gen k maxF with
    | (.ok v, st', k', a) =>
      match mintMany st' name gen k' maxF n with
      | (.ok vs, st'', k'', a') => (.ok (v :: vs), st'', k'', a + a')
      | (.error e, st'', k'', a') => (.error e, st'', k'', a + a')
    | (.error e, st', k', a) => (.error e, st', k', a)

/-- The result of one `mint` call: its outcome, the store it leaves
behind, and how many insert attempts it made. -/
structure MintResult where
  outcome : Except MintErr (List String)
  store : Store
  attempts : Nat
deriving Repr

/-- Embeds `mint_identifiers` of `src/lib/seattleflu/api/datastore.py`
over the spec-modelled `db.mint_identifiers` loop: minting against a
nonexistent set fails with `NotFoundError` before any insert; otherwise
`n` identifiers are minted with consecutive-failure budget `maxF`. -/
def mint (st : Store) (name : String) (n : Nat) (gen : Nat → String)
    (maxF : Nat) : MintResult :=
  if ¬ setExists st name then ⟨.error .notFound, st, 0⟩
  else
    let (r, st', _, a) := mintMany st name gen 0 maxF n
    ⟨r, st', a⟩

/-! ## Theorems -/

set_option maxRecDepth 10000

theorem string_length_zero_iff (s : String) : s.length = 0 ↔ s = "" := by
  constructor
  · intro h
    cases s with
    | mk data =>
      cases data with
      | nil => rfl
      | cons c cs => simp [String.length] at h
  · intro h
    subst h
    rfl

/-- C1: for every non-empty identifier and non-empty secret,
`generate_hash` returns the lowercase hexadecimal SHA-256 digest of the
identifier's UTF-8 bytes followed by the secret's UTF-8 bytes, and in
particular `generate_hash ("foo") "abadsecret"` is the literal regression
vector. -/
theorem generate_hash_is_sha256 (identifier secret : String)
    (env : Option String) (hid : identifier ≠ "") (hsec : secret ≠ "") :
    generate_hash identifier (some secret) env =
      .ok (hashSpec identifier secret) ∧
    generate_hash ("foo") (some ("abadsecret")) none =
      .ok ("72a79a0f21b20b9c7d0a117addc0d917bcda3065c9c8329aea77b11cb39096c8") := by
  constructor
  · have h1 : identifier.length ≠ 0 := fun h =>
      hid ((string_length_zero_iff identifier).mp h)
    have h2 : secret.length ≠ 0 := fun h =>
      hsec ((string_length_zero_iff secret).mp h)
    simp [generate_hash, generate_hash.generate_hashChecked, hashSpec, h1, h2]
  · rfl

/-- Witness for C1 at the spec's literal regression vector. -/
theorem generate_hash_is_sha256_witness :
    generate_hash ("foo") (some ("abadsecret")) none =
      .ok ("72a79a0f21b20b9c7d0a117addc0d917bcda3065c9c8329aea77b11cb39096c8") :=
  (generate_hash_is_sha256 ("foo") ("abadsecret") none
    (by decide) (by decide)).2

/-- C5: an empty identifier or an empty secret is rejected with one of the
empty-argument assertion failures (the spec's `InvalidArgumentError`
class), whatever the other argument is. -/
theorem generate_hash_rejects_empty (identifier secret : String)
    (env : Option String) :
    (∃ e, generate_hash ("") (some secret) env = .error e ∧
      e.isInvalidArgument = true) ∧
    (∃ e, generate_hash identifier (some ("")) env = .error e ∧
      e.isInvalidArgument = true) := by
  constructor
  · exact ⟨.emptyIdentifier, by
      simp [generate_hash, generate_hash.generate_hashChecked], rfl⟩
  · by_cases h : identifier.length = 0
    · exact ⟨.emptyIdentifier, by
        simp [generate_hash, generate_hash.generate_hashChecked, h], rfl⟩
    · exact ⟨.emptySecret, by
        simp [generate_hash, generate_hash.generate_hashChecked, h], rfl⟩

/-- C6: with no secret argument and the `ID3C_DEIDENTIFY_SECRET`
environment variable absent, `generate_hash` fails with the
missing-configuration error, an error kind distinct from the
empty-argument (`InvalidArgumentError`) kind. -/
theorem generate_hash_missing_config (identifier : String) :
    generate_hash identifier none none = .error .missingSecretConfig ∧
    HashErr.isInvalidArgument .missingSecretConfig = false := by
  exact ⟨rfl, rfl⟩

theorem extract_ok_of_all_present (record : List (String × String)) :
    ∀ columns : List String, (∀ c ∈ columns, (record.lookup c).isSome) →
      extract_fields_from_input record columns =
        .ok (columns.map fun c => (record.lookup c).getD (""))
  | [], _ => rfl
  | c :: rest, h => by
    have hc : (record.lookup c).isSome := h c (List.mem_cons_self c rest)
    obtain ⟨v, hv⟩ := Option.isSome_iff_exists.mp hc
    have ih := extract_ok_of_all_present record rest
      (fun c' hc' => h c' (List.mem_cons_of_mem c hc'))
    simp [extract_fields_from_input, hv, ih]

/-- C7: when every requested column is present in the record, the
identifier string fed to the hasher is the space-joined concatenation of
the record's values for those columns in the given order, and in
particular the record `{a: "x", b: "y"}` with columns `["a", "b"]` hashes
the identifier string `"x y"`. -/
theorem de_identify_row_joined_identifier (record : List (String × String))
    (columns : List String) (env : Option String)
    (h : ∀ c ∈ columns, (record.lookup c).isSome) :
    (extract_fields_from_input record columns =
      .ok (columns.map fun c => (record.lookup c).getD (""))) ∧
    (String.intercalate (" ")
        (columns.map fun c => (record.lookup c).getD ("")) ≠ "" →
      de_identify_row record columns env =
        ((generate_hash
            (String.intercalate (" ")
              (columns.map fun c => (record.lookup c).getD ("")))
            none env).map some).mapError RowErr.hashFailure) ∧
    (extract_fields_from_input [("a", "x"), ("b", "y")] ["a", "b"] =
      .ok ["x", "y"] ∧
     String.intercalate (" ") ["x", "y"] = "x y" ∧
     de_identify_row [("a", "x"), ("b", "y")] ["a", "b"] (some ("abadsecret")) =
       .ok (some (hashSpec ("x y") ("abadsecret")))) := by
  have hok := extract_ok_of_all_present record columns h
  refine ⟨hok, fun hne => ?_, by rfl, by rfl, ?_⟩
  · cases hgen : generate_hash
        (String.intercalate (" ") (columns.map fun c => (record.lookup c).getD ("")))
        none env with
    | error e => simp [de_identify_row, hok, hne, hgen, Except.map, Except.mapError]
    | ok hsh => simp [de_identify_row, hok, hne, hgen, Except.map, Except.mapError]
  · rfl

/-- Witness for C7 at the record `{a: "x", b: "y"}` and columns
`["a", "b"]`. -/
theorem de_identify_row_joined_identifier_witness :
    extract_fields_from_input [("a", "x"), ("b", "y")] ["a", "b"] =
      .ok (["a", "b"].map fun c =>
        (([("a", "x"), ("b", "y")]).lookup c).getD ("")) :=
  (de_identify_row_joined_identifier [("a", "x"), ("b", "y")] ["a", "b"]
    (some ("abadsecret")) (by decide)).1

theorem extract_err_of_missing (record : List (String × String)) :
    ∀ columns : List String, ∀ c ∈ columns, record.lookup c = none →
      ∃ m, extract_fields_from_input record columns =
          .error ⟨m, record.map Prod.fst⟩ ∧
        m ∈ columns ∧ record.lookup m = none
  | c0 :: rest, c, hc, hmiss => by
    cases hl : record.lookup c0 with
    | none =>
      exact ⟨c0, by simp [extract_fields_from_input, hl],
        List.mem_cons_self c0 rest, hl⟩
    | some v =>
      have hcr : c ∈ rest := by
        cases List.mem_cons.mp hc with
        | inl h => exact absurd hl (by rw [← h, hmiss]; exact fun h' => by injection h')
        | inr h => exact h
      obtain ⟨m, hm, hmem, hmn⟩ := extract_err_of_missing record rest c hcr hmiss
      exact ⟨m, by simp [extract_fields_from_input, hl, hm],
        List.mem_cons_of_mem c0 hmem, hmn⟩

/-- C8: when a requested column is absent from the record, field
extraction fails with an error naming a missing field and listing the
record's available fields, and in particular the record `{a: "x"}` with
columns `["a", "b"]` fails naming `"b"` with available fields `["a"]`. -/
theorem extract_fields_missing_field (record : List (String × String))
    (columns : List String) (c : String) (hc : c ∈ columns)
    (hmiss : record.lookup c = none) :
    (∃ m, extract_fields_from_input record columns =
        .error ⟨m, record.map Prod.fst⟩ ∧
      m ∈ columns ∧ record.lookup m = none) ∧
    extract_fields_from_input [("a", "x")] ["a", "b"] =
      .error ⟨"b", ["a"]⟩ :=
  ⟨extract_err_of_missing record columns c hc hmiss, by rfl⟩

/-- Witness for C8 at the record `{a: "x"}` and columns `["a", "b"]`. -/
theorem extract_fields_missing_field_witness :
    (∃ m, extract_fields_from_input [("a", "x")] ["a", "b"] =
        .error ⟨m, ([("a", "x")] : List (String × String)).map Prod.fst⟩ ∧
      m ∈ ["a", "b"] ∧ ([("a", "x")] : List (String × String)).lookup m = none) :=
  (extract_fields_missing_field [("a", "x")] ["a", "b"] "b"
    (by decide) (by decide)).1

/-- C9: a row whose selected-column values join to the empty string maps
to an empty (null) hash rather than an error, for every environment: the
per-row truthiness guard skips the hasher, so the empty-identifier
rejection is never reached on this path. -/
theorem de_identify_row_empty_join (record : List (String × String))
    (columns : List String) (env : Option String) (vs : List String)
    (hok : extract_fields_from_input record columns = .ok vs)
    (hemp : String.intercalate (" ") vs = "") :
    de_identify_row record columns env = .ok none := by
  simp [de_identify_row, hok, hemp]

/-- Witness for C9: a one-column record whose only selected value is
empty, with no secret configured at all. -/
theorem de_identify_row_empty_join_witness :
    de_identify_row [("a", "")] ["a"] none = .ok none :=
  de_identify_row_empty_join [("a", "")] ["a"] none [""] (by rfl) (by rfl)

theorem insertIdentifier_cases (st : Store) (name cand : String) :
    (setExists st name = false ∧
      insertIdentifier st name cand = .error .notFound) ∨
    (setExists st name = true ∧ (name, cand) ∈ st.minted ∧
      insertIdentifier st name cand = .ok (false, st)) ∨
    (setExists st name = true ∧ (name, cand) ∉ st.minted ∧
      insertIdentifier st name cand =
        .ok (true, ⟨st.sets, (name, cand) :: st.minted⟩)) := by
  by_cases hex : setExists st name
  · by_cases hmem : (name, cand) ∈ st.minted
    · exact .inr (.inl ⟨hex, hmem, by simp [insertIdentifier, hex, hmem]⟩)
    · exact .inr (.inr ⟨hex, hmem, by simp [insertIdentifier, hex, hmem]⟩)
  · exact .inl ⟨by simpa using hex, by simp [insertIdentifier, hex]⟩

theorem mintOne_ok (name : String) (gen : Nat → String) :
    ∀ (fuel k : Nat) (st : Store) (v : String) (st' : Store) (k' a : Nat),
      mintOne st name gen k fuel = (.ok v, st', k', a) →
      (name, v) ∉ st.minted ∧ st'.sets = st.sets ∧
        st'.minted = (name, v) :: st.minted
  | 0, k, st, v, st', k', a, h => by simp [mintOne] at h
  | fuel + 1, k, st, v, st', k', a, h => by
    rcases insertIdentifier_cases st name (gen k) with
      ⟨hex, heq⟩ | ⟨hex, hmem, heq⟩ | ⟨hex, hmem, heq⟩
    · rw [mintOne, heq] at h
      simp at h
    · rw [mintOne, heq] at h
      rcases hrec : mintOne st name gen (k + 1) fuel with ⟨r, stm, km, am⟩
      simp [hrec] at h
      obtain ⟨hr, hst, hk, ha⟩ := h
      subst hst
      exact mintOne_ok name gen fuel (k + 1) st v stm km am (by rw [hrec, hr])
    · rw [mintOne, heq] at h
      simp at h
      obtain ⟨hr, hst, hk, ha⟩ := h
      subst hr
      rw [← hst]
      exact ⟨hmem, rfl, rfl⟩

theorem mintMany_ok (name : String) (gen : Nat → String) (maxF : Nat) :
    ∀ (n : Nat) (st : Store) (k : Nat) (vs : List String) (st' : Store)
      (k' a : Nat),
      mintMany st name gen k maxF n = (.ok vs, st', k', a) →
      vs.length = n ∧ vs.Nodup ∧ ∀ v ∈ vs, (name, v) ∉ st.minted
  | 0, st, k, vs, st', k', a, h => by
    simp [mintMany] at h
    obtain ⟨hvs, -⟩ := h
    subst hvs
    simp
  | n + 1, st, k, vs, st', k', a, h => by
    rw [mintMany] at h
    rcases h1 : mintOne st name gen k maxF with ⟨r1, st1, k1, a1⟩
    cases r1 with
    | error e => simp [h1] at h
    | ok v =>
      obtain ⟨hfresh, hsets, hminted⟩ :=
        mintOne_ok name gen maxF k st v st1 k1 a1 h1
      rcases h2 : mintMany st1 name gen k1 maxF n with ⟨r2, st2, k2, a2⟩
      cases r2 with
      | error e => simp [h1, h2] at h
      | ok vs' =>
        simp [h1, h2] at h
        obtain ⟨hvs, hst, hk, ha⟩ := h
        obtain ⟨hlen, hnd, hdis⟩ :=
          mintMany_ok name gen maxF n st1 k1 vs' st2 k2 a2 h2
        subst hvs
        refine ⟨by simp [hlen], ?_, ?_⟩
        · refine List.nodup_cons.mpr ⟨fun hv => ?_, hnd⟩
          exact hdis v hv (by rw [hminted]; exact List.mem_cons_self _ _)
        · intro u hu
          cases List.mem_cons.mp hu with
          | inl h => exact h ▸ hfresh
          | inr h =>
            intro hmem
            exact hdis u h (by rw [hminted]; exact List.mem_cons_of_mem _ hmem)

/-- C2: whenever `mint` succeeds on an existing set, it returns exactly
`n` values (in generation order, as accumulated by the minting loop), all
distinct from each other and from every identifier previously minted in
that set. -/
theorem mint_returns_n_distinct (st : Store) (name : String) (n : Nat)
    (gen : Nat → String) (maxF : Nat) (vs : List String) (st' : Store)
    (a : Nat) (h : mint st name n gen maxF = ⟨.ok vs, st', a⟩) :
    vs.length = n ∧ vs.Nodup ∧ ∀ v ∈ vs, (name, v) ∉ st.minted := by
  by_cases hex : setExists st name
  · rcases hm : mintMany st name gen 0 maxF n with ⟨r, st2, k2, a2⟩
    simp [mint, hex, hm] at h
    obtain ⟨hr, hst, ha⟩ := h
    exact mintMany_ok name gen maxF n st 0 vs st2 k2 a2 (by rw [hm, hr])
  · simp [mint, hex] at h

/-- Witness for C2: minting two identifiers from a fresh set. -/
theorem mint_returns_n_distinct_witness :
    (["0", "1"] : List String).length = 2 ∧ (["0", "1"] : List String).Nodup ∧
    ∀ v ∈ (["0", "1"] : List String),
      ("s", v) ∉ (Store.mk ["s"] []).minted :=
  mint_returns_n_distinct ⟨["s"], []⟩ "s" 2 (fun k => toString k) 10
    ["0", "1"] ⟨["s"], [("s", "1"), ("s", "0")]⟩ 2 (by rfl)

/-- C3: minting against a set name that does not exist fails with
`NotFoundError`, leaves the store unchanged, and performs zero insert
attempts. -/
theorem mint_nonexistent_set (st : Store) (name : String) (n : Nat)
    (gen : Nat → String) (maxF : Nat) (h : setExists st name = false) :
    mint st name n gen maxF = ⟨.error .notFound, st, 0⟩ := by
  simp [mint, h]

/-- Witness for C3 against an empty store. -/
theorem mint_nonexistent_set_witness :
    mint ⟨[], []⟩ "s" 5 (fun _ => "x") 10 =
      ⟨.error .notFound, ⟨[], []⟩, 0⟩ :=
  mint_nonexistent_set ⟨[], []⟩ "s" 5 (fun _ => "x") 10 rfl

theorem mintOne_allcollision (st : Store) (name : String) (gen : Nat → String)
    (hex : setExists st name = true)
    (hcol : ∀ j, (name, gen j) ∈ st.minted) :
    ∀ (fuel k : Nat),
      mintOne st name gen k fuel = (.error .tooManyFailures, st, k + fuel, fuel)
  | 0, k => by simp [mintOne]
  | fuel + 1, k => by
    have heq : insertIdentifier st name (gen k) = .ok (false, st) := by
      simp [insertIdentifier, hex, hcol k]
    have ih := mintOne_allcollision st name gen hex hcol fuel (k + 1)
    rw [mintOne, heq]
    simp [ih]
    omega

/-- C4: against a store where every candidate collides, `mint(setName, 1)`
fails with `TooManyFailuresError` after exactly the configured
consecutive-failure bound of insert attempts, and the store — including
everything committed before the call — is left exactly as it was. -/
theorem mint_always_collision (st : Store) (name : String)
    (gen : Nat → String) (maxF : Nat) (hex : setExists st name = true)
    (hcol : ∀ j, (name, gen j) ∈ st.minted) :
    mint st name 1 gen maxF = ⟨.error .tooManyFailures, st, maxF⟩ := by
  have h1 := mintOne_allcollision st name gen hex hcol maxF 0
  have h2 : mintMany st name gen 0 maxF 1 =
      (.error .tooManyFailures, st, maxF, maxF) := by
    show mintMany st name gen 0 maxF (0 + 1) = _
    rw [mintMany]
    simp [h1]
  simp [mint, hex, h2]

/-- Witness for C4: a store already holding the only candidate the oracle
ever produces, with a failure bound of 10. -/
theorem mint_always_collision_witness :
    mint ⟨["s"], [("s", "x")]⟩ "s" 1 (fun _ => "x") 10 =
      ⟨.error .tooManyFailures, ⟨["s"], [("s", "x")]⟩, 10⟩ :=
  mint_always_collision ⟨["s"], [("s", "x")]⟩ "s" (fun _ => "x") 10 rfl
    (fun _ => List.mem_cons_self _ _)

/-- C10: `make_identifier_set` creates a missing set and reports `true`,
reports `false` and leaves the store unchanged for an existing set, and a
second call with the same name always reports `false` and leaves the state
of the first call intact. -/
theorem make_identifier_set_idempotent (st : Store) (name : String) :
    (name ∉ st.sets →
      make_identifier_set st name = (true, ⟨name :: st.sets, st.minted⟩)) ∧
    (name ∈ st.sets → make_identifier_set st name = (false, st)) ∧
    (make_identifier_set (make_identifier_set st name).2 name).1 = false ∧
    (make_identifier_set (make_identifier_set st name).2 name).2 =
      (make_identifier_set st name).2 := by
  by_cases h : name ∈ st.sets
  · simp [make_identifier_set, h]
  · simp [make_identifier_set, h]

/-- Witness for C10: creating the set "s" in an empty store and then
trying again. -/
theorem make_identifier_set_idempotent_witness :
    make_identifier_set ⟨[], []⟩ "s" = (true, ⟨["s"], []⟩) ∧
    make_identifier_set ⟨["s"], []⟩ "s" = (false, ⟨["s"], []⟩) :=
  ⟨(make_identifier_set_idempotent ⟨[], []⟩ "s").1 (by simp),
   (make_identifier_set_idempotent ⟨["s"], []⟩ "s").2.1 (by simp)⟩

end Id3c
